import Mathlib

set_option maxRecDepth 100000

/-!
Verification of the pymeasure fork's command-binding engine against its
natural-language specification.

The development shallowly embeds the repository's Python code:

* `pyFormatMap` models Python's `str.format_map` as used by
  `SubSystem.insert_id` (src/pymeasure/instruments/sub_system.py) and
  `BaseScopeChannel.insert_id`
  (src/pymeasure/instruments/tektronix/MSO/tektronix_common_base_channel.py).
* `SubSystem`, `CommandGroupSubSystem`, `BaseScopeChannel` model the
  addressable-node classes of the same files.
* The generic property engine (validators, value maps, command formatter,
  get/set pipeline) lives in files of the repository that are not part of
  the sources at hand; those parts are modelled from the specification and
  are marked `Modelled from the spec:` in their doc comments.
* Driver data (command templates, ranges, discrete sets, value maps) is
  transcribed from the individual driver files.
-/

/-- The `\x7b` character (left curly brace). -/
def lbrace : Char := Char.ofNat 123

/-- The `\x7d` character (right curly brace). -/
def rbrace : Char := Char.ofNat 125

/-- A Python value as it occurs in this repository's driver declarations:
channel identities and wire tokens are ints, strings, bools or floats.
Floats that appear in the drivers are exact decimals, embedded as rationals. -/
inductive PyVal where
  | pint (n : Int)
  | pstr (s : String)
  | pbool (b : Bool)
  | pfloat (q : ℚ)
  deriving DecidableEq, Repr

/-- Python `str()` of a value, as used when a format field is substituted. -/
def PyVal.str : PyVal → String
  | .pint n => toString n
  | .pstr s => s
  | .pbool b => if b then "True" else "False"
  | .pfloat q => toString q

/-- Numeric view of a Python value (Python numbers compare across
int/float/bool, `True == 1`). `none` for strings. -/
def PyVal.toQ : PyVal → Option ℚ
  | .pint n => some (n : ℚ)
  | .pstr _ => none
  | .pbool b => some (if b then 1 else 0)
  | .pfloat q => some q

/-- Lookup in a mapping given as an association list (embedding of the
Python `dict` literals appearing in the code). -/
def lookupPy (m : List (String × PyVal)) (k : String) : Option PyVal :=
  (m.find? (fun p => p.1 == k)).map (·.2)

/-- State of the `str.format_map` scanner: accumulated output (reversed),
possibly inside a replacement field or after a lone closing brace. -/
inductive FmSt where
  | lit (out : List Char)
  | openB (out : List Char)
  | field (out facc : List Char)
  | closeB (out : List Char)
  deriving DecidableEq

/-- Characters that, inside a replacement field, trigger attribute access,
indexing, a conversion or a format specification. -/
def fieldSpecial (c : Char) : Bool :=
  c = '.' || c = '[' || c = '!' || c = ':'

/-- Resolve a replacement field of `str.format_map`.  The field characters
are accumulated reversed in `facc`.  Attribute access, indexing, conversions
and format specifications fail here: no template in this repository uses
them with a key present in the mapping, and on the int/string identities the
drivers substitute, Python's attribute lookup (`"\x7bself.number\x7d"` against a
mapping without key `self`, or `getattr` on an int) raises. -/
def resolveField (m : List (String × PyVal)) (facc out : List Char) : Option FmSt :=
  if facc.any fieldSpecial then none
  else
    match lookupPy m (String.mk facc.reverse) with
    | some v => some (.lit ((PyVal.str v).data.reverse ++ out))
    | none => none

/-- One character step of the `str.format_map` scanner: doubled braces are
escapes, `\x7b...\x7d` delimits a replacement field, a lone `\x7d` is an error. -/
def fmStep (m : List (String × PyVal)) : FmSt → Char → Option FmSt
  | .lit out, c =>
    if c = lbrace then some (.openB out)
    else if c = rbrace then some (.closeB out)
    else some (.lit (c :: out))
  | .openB out, c =>
    if c = lbrace then some (.lit (lbrace :: out))
    else if c = rbrace then resolveField m [] out
    else some (.field out [c])
  | .field out facc, c =>
    if c = rbrace then resolveField m facc out
    else if c = lbrace then none
    else some (.field out (c :: facc))
  | .closeB out, c =>
    if c = rbrace then some (.lit (rbrace :: out))
    else none

/-- Run the scanner over a list of characters. -/
def fmRun (m : List (String × PyVal)) : FmSt → List Char → Option FmSt
  | st, [] => some st
  | st, c :: cs =>
    match fmStep m st c with
    | none => none
    | some st' => fmRun m st' cs

/-- Python's `command.format_map(m)`: replace every replacement field by the
value of its key in `m`, leaving all other characters unchanged; `none`
models the exception Python raises (unknown key, malformed template,
unsupported field form). -/
def pyFormatMap (m : List (String × PyVal)) (s : String) : Option String :=
  match fmRun m (.lit []) s.data with
  | some (.lit out) => some (String.mk out.reverse)
  | _ => none

/-- A string with no brace characters (hence no replacement fields). -/
def braceFreeB (s : String) : Bool :=
  s.data.all (fun c => !(c = lbrace || c = rbrace))

-- ## Addressable nodes (src/pymeasure/instruments/sub_system.py)

/-- `SubSystem` of src/pymeasure/instruments/sub_system.py: a non-root
addressable node with a `placeholder` (class default `"ch"`) and a channel
`id`. -/
structure SubSystem where
  placeholder : String := "ch"
  id : PyVal

/-- `SubSystem.insert_id`: `command.format_map({self.placeholder: self.id})`
(sub_system.py line 61). -/
def SubSystem.insert_id (s : SubSystem) (command : String) : Option String :=
  pyFormatMap [(s.placeholder, s.id)] command

/-- `SubSystem.write`: `self.parent.write(self.insert_id(command))`
(sub_system.py line 71).  The parent's `write` is an arbitrary function;
`none` models the propagated exception when `insert_id` fails. -/
def SubSystem.write {α : Type} (s : SubSystem) (parentWrite : String → α)
    (command : String) : Option α :=
  (s.insert_id command).map parentWrite

/-- `SubSystem.read`: `return self.parent.read()` (sub_system.py line 79). -/
def SubSystem.read {α : Type} (_s : SubSystem) (parentRead : Unit → α) : α :=
  parentRead ()

/-- `CommandGroupSubSystem` of sub_system.py: a pure namespacing node. -/
structure CommandGroupSubSystem where
  command_group_name : String

/-- `CommandGroupSubSystem.write`: `self.parent.write(command)` verbatim
(sub_system.py line 190) — no substitution of any kind. -/
def CommandGroupSubSystem.write {α : Type} (_g : CommandGroupSubSystem)
    (parentWrite : String → α) (command : String) : α :=
  parentWrite command

/-- `CommandGroupSubSystem.read`: `return self.parent.read()`
(sub_system.py line 198). -/
def CommandGroupSubSystem.read {α : Type} (_g : CommandGroupSubSystem)
    (parentRead : Unit → α) : α :=
  parentRead ()

/-- Modelled from the spec: the root `Instrument.write` (the `Instrument`
class is not among the sources at hand).  Per spec §4.5/§6 the root performs
the transport I/O, appending the write-termination sequence to the command;
it does not substitute placeholders.  The result is the wire bytes. -/
def Instrument.write (write_termination command : String) : String :=
  command ++ write_termination

/-- `BaseScopeChannel` of
src/pymeasure/instruments/tektronix/MSO/tektronix_common_base_channel.py:
a channel with two named placeholders, `placeholder_id = 'ch'` and
`placeholder_channel_type = "ch_type"`, and a `channel_type` (`'CH'`,
`'MATH'`, ...). -/
structure BaseScopeChannel where
  placeholder_id : String := "ch"
  channel_type : String := "CH"
  placeholder_channel_type : String := "ch_type"
  id : PyVal

/-- `BaseScopeChannel.insert_id`:
`command.format_map({self.placeholder_id: self.id,
self.placeholder_channel_type: self.channel_type})`
(tektronix_common_base_channel.py line 68). -/
def BaseScopeChannel.insert_id (ch : BaseScopeChannel) (command : String) :
    Option String :=
  pyFormatMap
    [(ch.placeholder_id, ch.id),
     (ch.placeholder_channel_type, PyVal.pstr ch.channel_type)]
    command


-- ## Template segments: the specification language for substitution claims

/-- A command-template segment: literal text or a named placeholder field. -/
inductive Seg where
  | lit (s : String)
  | ph (f : String)
  deriving DecidableEq

/-- Render a segment back to template syntax (fields wrapped in braces). -/
def renderSeg : Seg → String
  | .lit s => s
  | .ph f => String.mk (lbrace :: f.data ++ [rbrace])

/-- Render a segment list to the template string it denotes. -/
def renderSegs (l : List Seg) : String :=
  l.foldr (fun s acc => renderSeg s ++ acc) ""

/-- The substituted form of a segment: literals unchanged, fields replaced
by the `str()` of their value in the mapping. -/
def flatSeg (m : List (String × PyVal)) : Seg → String
  | .lit s => s
  | .ph f => ((lookupPy m f).map PyVal.str).getD ""

/-- The fully substituted string: every field replaced by its value, all
other characters unchanged. -/
def flatSegs (m : List (String × PyVal)) (l : List Seg) : String :=
  l.foldr (fun s acc => flatSeg m s ++ acc) ""

/-- A well-formed segment for mapping `m`: literal text carries no braces;
a field is nonempty, has a plain name (no attribute/index/conversion/spec
characters) and its key is present in `m`. -/
def SegOK (m : List (String × PyVal)) : Seg → Prop
  | .lit s => ∀ c ∈ s.data, c ≠ lbrace ∧ c ≠ rbrace
  | .ph f => f.data ≠ [] ∧ (∀ c ∈ f.data, c ≠ lbrace ∧ c ≠ rbrace ∧ fieldSpecial c = false)
      ∧ (lookupPy m f).isSome

-- ## Validators (spec §4.1; validators.py is not among the sources at hand)

/-- Validation failure kinds of spec §4.1/§7. -/
inductive ValErr where
  | rangeError
  | discreteSetError
  | typeError
  deriving DecidableEq, Repr

/-- Modelled from the spec: `validate_range(value, [low, high], truncate)`
(spec §4.1, missing `validators.py`): clamps to the bounds when
`truncate = true`; otherwise fails with `RangeError` when the value lies
outside the inclusive range. -/
def validate_range (v lo hi : ℚ) (truncate : Bool) : Except ValErr ℚ :=
  if truncate then
    .ok (if v < lo then lo else if hi < v then hi else v)
  else if v < lo ∨ hi < v then .error .rangeError
  else .ok v

/-- Modelled from the spec: `validate_discrete_set(value, allowed_values)`
in its strict form (spec §4.1, missing `validators.py`): returns the value
unchanged when it is a member of the allowed collection (equality by
value), otherwise fails with `DiscreteSetError`. -/
def validate_discrete_set (v : PyVal) (allowed : List PyVal) : Except ValErr PyVal :=
  if v ∈ allowed then .ok v else .error .discreteSetError

/-- A property's validator as declared in the drivers. -/
inductive Validator where
  | vNone
  | strict_range (lo hi : ℚ)
  | truncated_range (lo hi : ℚ)
  | strict_discrete_set (allowed : List PyVal)
  deriving DecidableEq

/-- Modelled from the spec: applying the declared validator to a candidate
value (spec §4.4 Set step 1).  Range validators require a numeric value. -/
def applyValidator : Validator → PyVal → Except ValErr PyVal
  | .vNone, v => .ok v
  | .strict_range lo hi, v =>
    match v.toQ with
    | none => .error .typeError
    | some q => (validate_range q lo hi false).map (fun _ => v)
  | .truncated_range lo hi, v =>
    match v.toQ with
    | none => .error .typeError
    | some q =>
      match validate_range q lo hi true with
      | .ok q' => .ok (if q' = q then v else .pfloat q')
      | .error e => .error e
  | .strict_discrete_set allowed, v => validate_discrete_set v allowed

-- ## Value maps (spec §4.2; the map engine is not among the sources at hand)

/-- Modelled from the spec: `to_wire(value, map)` — forward translation of a
logical value to its wire token through the declared translation table
(spec §4.2).  `none` models the exception on a value outside the map's
domain. -/
def to_wire (m : List (PyVal × PyVal)) (v : PyVal) : Option PyVal :=
  (m.find? (fun p => p.1 == v)).map (·.2)

/-- Modelled from the spec: `from_wire(token, map)` — inverse translation of
a wire token back to the logical value (spec §4.2). -/
def from_wire (m : List (PyVal × PyVal)) (t : PyVal) : Option PyVal :=
  (m.find? (fun p => p.2 == t)).map (·.1)

/-- `BOOLEAN_TO_INT = {True: 1, False: 0}`
(src/pymeasure/instruments/values.py line 55). -/
def BOOLEAN_TO_INT : List (PyVal × PyVal) :=
  [(.pbool true, .pint 1), (.pbool false, .pint 0)]

/-- `BOOLEAN_TO_STR = {True: "True", False: "FALSE"}`
(src/pymeasure/instruments/values.py line 56). -/
def BOOLEAN_TO_STR : List (PyVal × PyVal) :=
  [(.pbool true, .pstr "True"), (.pbool false, .pstr "FALSE")]

/-- `BOOLEAN_TO_ON_OFF = {True: "ON", False: "OFF"}`
(src/pymeasure/instruments/values.py line 57). -/
def BOOLEAN_TO_ON_OFF : List (PyVal × PyVal) :=
  [(.pbool true, .pstr "ON"), (.pbool false, .pstr "OFF")]

/-- `BINARY = (0, 1)` (src/pymeasure/instruments/values.py line 51) used
with `map_values=True`: a sequence maps each member to its index. -/
def BINARY : List (PyVal × PyVal) :=
  [(.pint 0, .pint 0), (.pint 1, .pint 1)]

/-- `BOOLEAN = (False, True)` (src/pymeasure/instruments/values.py line 52)
as an index map. -/
def BOOLEAN : List (PyVal × PyVal) :=
  [(.pbool false, .pint 0), (.pbool true, .pint 1)]

/-- `{True: 1, False: 0}` declared literally for `output_enabled` in
Kikusui_PWR1201L.py line 88 and keysight_common_base.py line 77. -/
def OUTPUT_ENABLED_MAP : List (PyVal × PyVal) :=
  [(.pbool true, .pint 1), (.pbool false, .pint 0)]

/-- `{True: 'ON', False: 'OFF'}` declared literally for `output_enabled` in
Kikusui_PLZ334WL.py line 84. -/
def ON_OFF_MAP : List (PyVal × PyVal) :=
  [(.pbool true, .pstr "ON"), (.pbool false, .pstr "OFF")]

/-- `[0, 1]` used with `map_values=True` for `load_enabled` in
Chroma_63600_electronic_load_mainframe.py line 77, for `enable` in
MSO58.py/MSO54.py, as an index map. -/
def ZERO_ONE_MAP : List (PyVal × PyVal) :=
  [(.pint 0, .pint 0), (.pint 1, .pint 1)]

/-- Every value map declared for the drivers of this repository (the
predefined maps of values.py and the literal dict/sequence maps of
the driver files). -/
def driverValueMaps : List (List (PyVal × PyVal)) :=
  [BOOLEAN_TO_INT, BOOLEAN_TO_STR, BOOLEAN_TO_ON_OFF, BINARY, BOOLEAN,
   OUTPUT_ENABLED_MAP, ON_OFF_MAP, ZERO_ONE_MAP]

-- ## Printf-style numeric formatting (spec §4.2/§6)

/-- Number of decimal digits of a natural number. -/
def digitsLen (n : Nat) : Nat := (Nat.toDigits 10 n).length

/-- `10 ^ e` as a rational, for an integer exponent. -/
def tenPowZ (e : Int) : ℚ :=
  if 0 ≤ e then ((10 : ℚ) ^ e.toNat) else 1 / (10 : ℚ) ^ (-e).toNat

/-- Floor of a rational (floor division of numerator by denominator). -/
def ratFloor (q : ℚ) : Int := q.num.fdiv (q.den : Int)

/-- `⌊log10 q⌋` for a positive rational, computed from decimal digit
counts of numerator and denominator with a one-step correction. -/
def qFloorLog10 (q : ℚ) : Int :=
  let e0 : Int := (digitsLen q.num.natAbs : Int) - (digitsLen q.den : Int)
  if q < tenPowZ e0 then e0 - 1 else e0

/-- Round a rational to the nearest integer, ties to even (the rounding of
C's printf conversions). -/
def qRoundHalfEven (q : ℚ) : Int :=
  let f := ratFloor q
  let r := q - (f : ℚ)
  if r < 1 / 2 then f
  else if (1 : ℚ) / 2 < r then f + 1
  else if f % 2 = 0 then f else f + 1

/-- Remove trailing `'0'` characters. -/
def stripTrailingZeros (l : List Char) : List Char :=
  (l.reverse.dropWhile (fun c => c = '0')).reverse

/-- Modelled from the spec: the `%g` value-format specifier (spec §6:
printf-style floating-point formatting; the formatting code of
`CommonBase` is not among the sources at hand).  C/Python `%g` with the
default precision 6: six significant digits, fixed notation for decimal
exponents in `[-4, 6)` and scientific notation (at least two exponent
digits) otherwise, trailing zeros and a trailing decimal point removed. -/
def formatG (q : ℚ) : String :=
  if q = 0 then "0"
  else
    let sign : String := if q < 0 then "-" else ""
    let aq : ℚ := if q < 0 then -q else q
    let x0 : Int := qFloorLog10 aq
    let n0 : Int := qRoundHalfEven (aq * tenPowZ (5 - x0))
    let n : Int := if n0 = 10 ^ 6 then 10 ^ 5 else n0
    let x : Int := if n0 = 10 ^ 6 then x0 + 1 else x0
    let ds : List Char := Nat.toDigits 10 n.toNat
    if -4 ≤ x ∧ x < 6 then
      if 0 ≤ x then
        let ip := ds.take (x.toNat + 1)
        let fp := stripTrailingZeros (ds.drop (x.toNat + 1))
        sign ++ String.mk ip ++ (if fp.isEmpty then "" else "." ++ String.mk fp)
      else
        let zeros := List.replicate ((-x).toNat - 1) '0'
        let fp := stripTrailingZeros (zeros ++ ds)
        sign ++ "0" ++ (if fp.isEmpty then "" else "." ++ String.mk fp)
    else
      let mant :=
        match ds with
        | d :: rest =>
          let fp := stripTrailingZeros rest
          String.mk [d] ++ (if fp.isEmpty then "" else "." ++ String.mk fp)
        | [] => "0"
      let esign := if x < 0 then "-" else "+"
      let eabs := (if x < 0 then -x else x).toNat
      let estr := if eabs < 10 then "0" ++ toString eabs else toString eabs
      sign ++ mant ++ "e" ++ esign ++ estr


-- ## Response parsing (spec §4.4 Get, §6)

/-- Value of a decimal digit character. -/
def digitVal (c : Char) : Option Nat :=
  if '0' ≤ c ∧ c ≤ '9' then some (c.toNat - '0'.toNat) else none

/-- Accumulate decimal digits; fails on a non-digit. -/
def parseDigitsAux (acc : Nat) : List Char → Option Nat
  | [] => some acc
  | c :: cs =>
    match digitVal c with
    | none => none
    | some d => parseDigitsAux (acc * 10 + d) cs

/-- Parse a nonempty all-digit string. -/
def parseNatChars (l : List Char) : Option Nat :=
  match l with
  | [] => none
  | _ => parseDigitsAux 0 l

/-- Parse an optionally signed integer literal (Python `int(...)` on the
forms the instruments return). -/
def parseIntChars : List Char → Option Int
  | '-' :: rest => (parseNatChars rest).map (fun n => -(n : Int))
  | '+' :: rest => (parseNatChars rest).map (fun n => (n : Int))
  | l => (parseNatChars l).map (fun n => (n : Int))

/-- Split a character list at the first `'e'`/`'E'`, returning the mantissa
characters and, when present, the exponent characters. -/
def splitAtExp : List Char → List Char × Option (List Char)
  | [] => ([], none)
  | c :: cs =>
    if c = 'e' || c = 'E' then ([], some cs)
    else
      let (a, b) := splitAtExp cs
      (c :: a, b)

/-- Split a character list at the first `'.'`. -/
def splitAtDot : List Char → List Char × List Char
  | [] => ([], [])
  | c :: cs =>
    if c = '.' then ([], cs)
    else
      let (a, b) := splitAtDot cs
      (c :: a, b)

/-- Parse an unsigned decimal mantissa `digits[.digits]` (at least one
digit overall) to a rational. -/
def parseMantissa (l : List Char) : Option ℚ :=
  let (ip, fp) := splitAtDot l
  if ip.isEmpty && fp.isEmpty then none
  else
    match parseDigitsAux 0 ip, parseDigitsAux 0 fp with
    | some i, some f => some ((i : ℚ) + (f : ℚ) / (10 : ℚ) ^ fp.length)
    | _, _ => none

/-- Modelled from the spec: parsing an ASCII floating-point response
(spec §4.4 Get: "parse response per expected primitive type"; the parsing
code of `CommonBase` is not among the sources at hand).  Covers the forms
the instruments return: optional sign, decimal mantissa, optional
`e`/`E` exponent. -/
def parseSci (s : String) : Option ℚ :=
  let withSign : List Char → Option ℚ := fun l =>
    let (m, e) := splitAtExp l
    match parseMantissa m with
    | none => none
    | some q =>
      match e with
      | none => some q
      | some ec => (parseIntChars ec).map (fun z => q * tenPowZ z)
  match s.data with
  | '-' :: rest => (withSign rest).map (fun q => -q)
  | '+' :: rest => withSign rest
  | l => withSign l

/-- Modelled from the spec: parse a wire response into a host value —
an integer if the response is an integer literal, else a float if it
parses as one, else the literal string (spec §4.4 Get). -/
def parseResponse (r : String) : PyVal :=
  match parseIntChars r.data with
  | some n => .pint n
  | none =>
    match parseSci r with
    | some q => .pfloat q
    | none => .pstr r


-- ## Command formatter and property get/set pipeline (spec §4.3/§4.4)

/-- Find the single `%` value slot of a write template: the characters
before it, the conversion character, and the characters after it. -/
def findSlot : List Char → Option (List Char × Char × List Char)
  | [] => none
  | c :: cs =>
    if c = '%' then
      match cs with
      | [] => none
      | s :: rest => some ([], s, rest)
    else (findSlot cs).map (fun p => (c :: p.1, p.2.1, p.2.2))

/-- Modelled from the spec: rendering one value through a printf-style
conversion (spec §6: `%g` floating point, `%d` integer, `%s` string). -/
def formatValue (spec : Char) (v : PyVal) : Option String :=
  if spec = 'd' then
    match v with
    | .pint n => some (toString n)
    | .pbool b => some (if b then "1" else "0")
    | .pfloat q => some (toString (Int.tdiv q.num (q.den : Int)))
    | .pstr _ => none
  else if spec = 'g' then v.toQ.map formatG
  else if spec = 's' then some v.str
  else none

/-- Modelled from the spec: `format_write` — substitute the single value
slot of a write template with the formatted value (spec §4.3).  Fails when
the template has no slot, an unsupported conversion, or more than one
slot. -/
def pyPercentFormat (template : String) (v : PyVal) : Option String :=
  match findSlot template.data with
  | none => none
  | some (p, s, r) =>
    if r.any (fun c => c = '%') then none
    else (formatValue s v).map (fun fv => String.mk p ++ fv ++ String.mk r)


/-- Failure kinds of the Set pipeline (spec §4.4/§7). -/
inductive SetErr where
  | notWritable
  | validation (e : ValErr)
  | mapError
  | templateError
  deriving DecidableEq, Repr

/-- A property descriptor as declared by `Instrument.control` /
`.measurement` / `.setting` in the driver files: the query and write
templates, the validator, and the optional value map (spec §3). -/
structure PropertyDef where
  read_template : Option String
  write_template : Option String
  validator : Validator := .vNone
  value_map : Option (List (PyVal × PyVal)) := none

/-- Modelled from the spec: the Set pipeline of a property (spec §4.4):
validate the candidate, apply the forward value map, render the write
command, transmit.  The result is the list of strings transmitted to the
node's `write` (empty when a step failed — a failed set is atomic) paired
with the failure, if any. -/
def PropertyDef.set (p : PropertyDef) (v : PyVal) : List String × Option SetErr :=
  match p.write_template with
  | none => ([], some .notWritable)
  | some t =>
    match applyValidator p.validator v with
    | .error e => ([], some (.validation e))
    | .ok v' =>
      let wire : Option PyVal :=
        match p.value_map with
        | none => some v'
        | some m => to_wire m v'
      match wire with
      | none => ([], some .mapError)
      | some w =>
        match pyPercentFormat t w with
        | none => ([], some .templateError)
        | some s => ([s], none)

/-- Modelled from the spec: the Get pipeline of a property applied to the
wire response (spec §4.4): parse the response, then apply the inverse
value map if one is declared.  Transport and placeholder resolution happen
outside this function. -/
def PropertyDef.get (p : PropertyDef) (response : String) : Option PyVal :=
  match p.read_template with
  | none => none
  | some _ =>
    match p.value_map with
    | some m => from_wire m (parseResponse response)
    | none => some (parseResponse response)

-- ## Driver property declarations used by the claims

/-- `PWR1201L.voltage_setpoint`
(src/pymeasure/instruments/kikusui/Kikusui_PWR1201L.py lines 53-60):
read `"VOLT?"`, write `"VOLT %g"`, `strict_range`, `values=[0, 40]`. -/
def PWR1201L_voltage_setpoint : PropertyDef :=
  { read_template := some "VOLT?", write_template := some "VOLT %g",
    validator := .strict_range 0 40 }

/-- `PLZ1205W.current_range`
(src/pymeasure/instruments/kikusui/Kikusui_PLZ1205W.py lines 79-84):
read `"CURR:RANG?"`, write `"CURR:RANG %s"`, `strict_discrete_set`,
`values=["LOW", "MED", "HIGH"]`. -/
def PLZ1205W_current_range : PropertyDef :=
  { read_template := some "CURR:RANG?", write_template := some "CURR:RANG %s",
    validator := .strict_discrete_set [.pstr "LOW", .pstr "MED", .pstr "HIGH"] }

/-- The allowed-values collection of `ScopeChannel.coupling`
(src/pymeasure/instruments/tektronix/MSO/tektronix_common_base_channel.py
line 117): the Python source reads `["AC", "DC" "DCR"]` — the two adjacent
string literals concatenate into one token. -/
def couplingValues : List PyVal := [.pstr "AC", .pstr ("DC" ++ "DCR")]

/-- `ScopeChannel.coupling` (tektronix_common_base_channel.py lines
113-119): read `'CH\x7bch\x7d:COUPling?'`, write `'CH\x7bch\x7d:COUPling %s'`,
`strict_discrete_set` over `couplingValues`, no value map. -/
def ScopeChannel_coupling : PropertyDef :=
  { read_template := some "CH\x7bch\x7d:COUPling?",
    write_template := some "CH\x7bch\x7d:COUPling %s",
    validator := .strict_discrete_set couplingValues }

-- ## Channel-owned command templates of the driver classes

/-- Templates of `VoltageChannel`
(src/pymeasure/instruments/keysight/keysight_common_base.py). -/
def voltageChannelTemplates : List String :=
  ["VOLT? (@\x7bch\x7d)", "VOLT %g, (@\x7bch\x7d)",
   "CURR? (@\x7bch\x7d)", "CURR %g, (@\x7bch\x7d)",
   "MEASure:VOLTage? (@\x7bch\x7d)",
   "MEAS:CURRent? (@\x7bch\x7d)",
   "OUTPut? (@\x7bch\x7d)", "OUTPut %d, (@\x7bch\x7d)"]

/-- Templates of `Chroma63600Channel`
(src/pymeasure/instruments/chroma/Chroma_63600_electronic_load_mainframe.py). -/
def chromaChannelTemplates : List String :=
  ["MEAS:VOLT?", "MEAS:CURR?", "MEAS:POWE?", "MEAS:RES?",
   "MODE %s",
   "CURR?", "CURR %g",
   "VOLT?", "VOLT %g",
   "POWE?", "POWE %g",
   "LOAD?", "LOAD %d"]

/-- Label templates of `BaseScopeChannel`
(src/pymeasure/instruments/tektronix/MSO/tektronix_common_base_channel.py),
inherited by every scope/math/memory channel. -/
def baseScopeLabelTemplates : List String :=
  ["\x7bch_type\x7d\x7bch\x7d:LABel:NAMe?", "\x7bch_type\x7d\x7bch\x7d:LABel:NAMe \"%s\"",
   "\x7bch_type\x7d\x7bch\x7d:LABel:XPOS?", "\x7bch_type\x7d\x7bch\x7d:LABel:XPOS %g",
   "\x7bch_type\x7d\x7bch\x7d:LABel:YPOS?", "\x7bch_type\x7d\x7bch\x7d:LABel:YPOS %g"]

/-- Own templates of `ScopeChannel` (same file, lines 98-166). -/
def scopeChannelOwnTemplates : List String :=
  ["SELECT:CH\x7bch\x7d?", "SELECT:CH\x7bch\x7d %d",
   "CH\x7bch\x7d:CLIPping?",
   "CH\x7bch\x7d:COUPling?", "CH\x7bch\x7d:COUPling %s",
   "CH\x7bch\x7d:INVert?", "CH\x7bch\x7d:INVert %s",
   "CH\x7bch\x7d:SCALE?", "CH\x7bch\x7d:SCALE %g",
   "CH\x7bch\x7d:OFFSet?", "CH\x7bch\x7d:OFFSet %g",
   "CH\x7bch\x7d:POSition?", "CH\x7bch\x7d:POSition %g"]

/-- Own templates of `MathChannel` (same file, lines 180-185). -/
def mathChannelOwnTemplates : List String :=
  ["MATH\x7bch\x7d:DEFinition?", "MATH\x7bch\x7d:DEFinition %s"]

/-- Own template of the first (shadowed) `MemoryChannel` declaration
(same file, lines 195-198). -/
def memChannelOwnTemplates : List String :=
  ["DATA:SOURCE MEM\x7bch\x7d;:CURVe?"]

/-- The single-placeholder substitution mapping of a `SubSystem`-style
channel with identity `id`. -/
def subMapCh (id : PyVal) : List (String × PyVal) := [("ch", id)]

/-- The two-placeholder substitution mapping of a `BaseScopeChannel` with
channel type `ty` and numeric identity `i`
(tektronix_common_base_channel.py line 68). -/
def msoMap (ty : String) (i : Int) : List (String × PyVal) :=
  [("ch", .pint i), ("ch_type", .pstr ty)]

/-- Every channel-owned command template of the current driver classes,
paired with the substitution mapping of each node instance the drivers
create: `VoltageChannel` ids 1-3 (keysight_E36311A.py/keysight_E36312A.py),
`Chroma63600Channel` ids "CHAN1"-"CHAN5", `ScopeChannel`/`MathChannel`/
`MemoryChannel` ids 1-8/1-4/1-8 with channel types CH/MATH/REF
(tektronix_common_base_scope.py of MSO), and the shadowed MEM declaration. -/
def chTemplates : List (List (String × PyVal) × String) :=
  (([1, 2, 3] : List Int).flatMap fun i =>
    voltageChannelTemplates.map (fun t => (subMapCh (.pint i), t)))
  ++ ((["CHAN1", "CHAN2", "CHAN3", "CHAN4", "CHAN5"]).flatMap fun s =>
    chromaChannelTemplates.map (fun t => (subMapCh (.pstr s), t)))
  ++ (([1, 2, 3, 4, 5, 6, 7, 8] : List Int).flatMap fun i =>
    (baseScopeLabelTemplates ++ scopeChannelOwnTemplates).map (fun t => (msoMap "CH" i, t)))
  ++ (([1, 2, 3, 4] : List Int).flatMap fun i =>
    (baseScopeLabelTemplates ++ mathChannelOwnTemplates).map (fun t => (msoMap "MATH" i, t)))
  ++ (([1, 2, 3, 4, 5, 6, 7, 8] : List Int).flatMap fun i =>
    baseScopeLabelTemplates.map (fun t => (msoMap "REF" i, t)))
  ++ (([1, 2, 3, 4, 5, 6, 7, 8] : List Int).flatMap fun i =>
    memChannelOwnTemplates.map (fun t => (msoMap "MEM" i, t)))

/-- Substitution is total and idempotent on a mapping/template pair: it
succeeds, the result carries no braces (hence no remaining placeholder
tokens), and substituting again returns the result unchanged. -/
def substOkB (p : List (String × PyVal) × String) : Bool :=
  match pyFormatMap p.1 p.2 with
  | none => false
  | some r => braceFreeB r && (pyFormatMap p.1 r == some r)


/-- Well-formedness of a segment for claim C1: literal text is brace-free
and every placeholder field is exactly the token `ch`. -/
def c1Seg : Seg → Bool
  | .lit t => braceFreeB t
  | .ph f => f == "ch"

-- ## Helper lemmas about the format-map scanner

theorem string_data_append (a b : String) : (a ++ b).data = a.data ++ b.data := rfl

theorem string_mk_data (s : String) : String.mk s.data = s := rfl

theorem fmRun_cons_some (m : List (String × PyVal)) (st : FmSt) (c : Char)
    (st' : FmSt) (cs : List Char) (h : fmStep m st c = some st') :
    fmRun m st (c :: cs) = fmRun m st' cs := by
  show (match fmStep m st c with | none => none | some s => fmRun m s cs) = _
  rw [h]

theorem fmRun_append (m : List (String × PyVal)) (l₁ l₂ : List Char) (st : FmSt) :
    fmRun m st (l₁ ++ l₂) = (fmRun m st l₁).bind (fun st' => fmRun m st' l₂) := by
  induction l₁ generalizing st with
  | nil => simp [fmRun]
  | cons c cs ih =>
    simp only [List.cons_append, fmRun]
    cases fmStep m st c with
    | none => simp
    | some st' => simp only [Option.bind_some]; exact ih st'

/-- Running the scanner over brace-free text appends it to the output. -/
theorem fmRun_lit (m : List (String × PyVal)) (cs : List Char)
    (h : ∀ c ∈ cs, c ≠ lbrace ∧ c ≠ rbrace) (out : List Char) :
    fmRun m (.lit out) cs = some (.lit (cs.reverse ++ out)) := by
  induction cs generalizing out with
  | nil => simp [fmRun]
  | cons c cs ih =>
    have hc := h c (List.mem_cons_self c cs)
    have hs : ∀ c' ∈ cs, c' ≠ lbrace ∧ c' ≠ rbrace := fun c' hc' => h c' (List.mem_cons_of_mem c hc')
    simp only [fmRun, fmStep, if_neg hc.1, if_neg hc.2]
    rw [ih hs]
    simp

/-- Running the scanner inside a field over clean characters accumulates
them until the closing brace resolves the field. -/
theorem fmRun_field (m : List (String × PyVal)) (cs : List Char)
    (h : ∀ c ∈ cs, c ≠ lbrace ∧ c ≠ rbrace ∧ fieldSpecial c = false)
    (out facc : List Char) :
    fmRun m (.field out facc) (cs ++ [rbrace]) =
      resolveField m (cs.reverse ++ facc) out := by
  induction cs generalizing facc with
  | nil =>
    cases hr : resolveField m facc out <;>
      simp [fmRun, fmStep, hr]
  | cons c cs ih =>
    have hc := h c (List.mem_cons_self c cs)
    have hs : ∀ c' ∈ cs, c' ≠ lbrace ∧ c' ≠ rbrace ∧ fieldSpecial c' = false :=
      fun c' hc' => h c' (List.mem_cons_of_mem c hc')
    simp only [List.cons_append, fmRun, fmStep, if_neg hc.2.1, if_neg hc.1]
    rw [show cs.append [rbrace] = cs ++ [rbrace] from rfl, ih hs (c :: facc)]
    simp

/-- Master run lemma: over a well-formed rendered segment list the scanner
produces exactly the substituted string (reversed, onto the accumulator). -/
theorem fmRun_segs (m : List (String × PyVal)) (l : List Seg)
    (h : ∀ s ∈ l, SegOK m s) (out : List Char) :
    fmRun m (.lit out) (renderSegs l).data =
      some (.lit ((flatSegs m l).data.reverse ++ out)) := by
  induction l generalizing out with
  | nil => simp [renderSegs, flatSegs, fmRun]
  | cons s l ih =>
    have hs := h s (List.mem_cons_self s l)
    have hl : ∀ s' ∈ l, SegOK m s' := fun s' hs' => h s' (List.mem_cons_of_mem s hs')
    have hrend : (renderSegs (s :: l)).data = (renderSeg s).data ++ (renderSegs l).data := by
      show ((renderSeg s ++ renderSegs l)).data = _
      exact string_data_append _ _
    have hflat : (flatSegs m (s :: l)).data = (flatSeg m s).data ++ (flatSegs m l).data := by
      show ((flatSeg m s ++ flatSegs m l)).data = _
      exact string_data_append _ _
    rw [hrend, fmRun_append]
    cases s with
    | lit t =>
      rw [show (renderSeg (Seg.lit t)).data = t.data from rfl]
      rw [fmRun_lit m _ hs out]
      rw [Option.some_bind, ih hl]
      rw [hflat]
      simp [flatSeg, List.append_assoc]
    | ph f =>
      obtain ⟨hne, hclean, hsome⟩ := hs
      obtain ⟨v, hv⟩ := Option.isSome_iff_exists.mp hsome
      have hrs : (renderSeg (Seg.ph f)).data = lbrace :: (f.data ++ [rbrace]) := rfl
      rw [hrs]
      cases hfd : f.data with
      | nil => exact absurd hfd hne
      | cons c0 cs =>
        have hc0 := hclean c0 (by rw [hfd]; exact List.mem_cons_self _ _)
        have hcs : ∀ c' ∈ cs, c' ≠ lbrace ∧ c' ≠ rbrace ∧ fieldSpecial c' = false :=
          fun c' hc' => hclean c' (by rw [hfd]; exact List.mem_cons_of_mem _ hc')
        have hstep1 : fmStep m (FmSt.lit out) lbrace = some (.openB out) := by
          simp [fmStep]
        have hstep2 : fmStep m (FmSt.openB out) c0 = some (.field out [c0]) := by
          simp [fmStep, hc0.1, hc0.2.1]
        rw [fmRun_cons_some m _ lbrace _ _ hstep1, List.cons_append,
          fmRun_cons_some m _ c0 _ _ hstep2]
        rw [fmRun_field m cs hcs out [c0]]
        have hres : resolveField m (cs.reverse ++ [c0]) out =
            some (.lit ((PyVal.str v).data.reverse ++ out)) := by
          have hnospec : (cs.reverse ++ [c0]).any fieldSpecial = false := by
            simp only [List.any_eq_false]
            intro c' hc'
            rcases List.mem_append.mp hc' with h1 | h2
            · simp [(hcs c' (List.mem_reverse.mp h1)).2.2]
            · rw [List.mem_singleton.mp h2]; simp [hc0.2.2]
          have hmk : String.mk (cs.reverse ++ [c0]).reverse = f := by
            rw [List.reverse_append, List.reverse_reverse]
            simp only [List.reverse_singleton, List.singleton_append]
            rw [← hfd]
          rw [resolveField, if_neg (by rw [hnospec]; exact Bool.false_ne_true), hmk, hv]
        rw [hres]
        rw [Option.some_bind, ih hl]
        rw [hflat]
        have : (flatSeg m (Seg.ph f)).data = (PyVal.str v).data := by
          simp [flatSeg, hv]
        rw [this]
        simp [List.append_assoc]

/-- `format_map` over a well-formed template substitutes every field by its
value and leaves every other character unchanged. -/
theorem pyFormatMap_segs (m : List (String × PyVal)) (l : List Seg)
    (h : ∀ s ∈ l, SegOK m s) :
    pyFormatMap m (renderSegs l) = some (flatSegs m l) := by
  rw [pyFormatMap, fmRun_segs m l h []]
  simp [string_mk_data]


-- ## String append helpers

theorem strAppend_assoc (a b c : String) : (a ++ b) ++ c = a ++ (b ++ c) := by
  apply congrArg String.mk
  show (a.data ++ b.data) ++ c.data = a.data ++ (b.data ++ c.data)
  exact List.append_assoc _ _ _

theorem strAppend_empty (a : String) : a ++ "" = a := by
  apply congrArg String.mk
  show a.data ++ [] = a.data
  exact List.append_nil _

-- ## Claims

/-- Brace-free literal text is a well-formed segment for any mapping. -/
theorem segOK_lit (m : List (String × PyVal)) (t : String)
    (h : braceFreeB t = true) : SegOK m (Seg.lit t) := by
  intro c hc
  have := List.all_eq_true.mp h c hc
  constructor
  · intro he; rw [he] at this; simp at this
  · intro he; rw [he] at this; simp at this

/-- C1: for a non-root node whose placeholder token is `ch` and whose
identity is `id`, `insert_id` returns the command with every occurrence of
the placeholder field `\x7bch\x7d` replaced by the identity and all other
characters unchanged.  A command is presented as its segment decomposition
(brace-free literal chunks interleaved with `\x7bch\x7d` fields); the result is
the same decomposition with each field replaced by `str(id)`. -/
theorem claim_C1_insert_id_substitutes_placeholder (id : PyVal) (segs : List Seg)
    (h : ∀ s ∈ segs, c1Seg s = true) :
    SubSystem.insert_id { placeholder := "ch", id := id } (renderSegs segs) =
      some (flatSegs [("ch", id)] segs) := by
  apply pyFormatMap_segs
  intro s hs
  have hc := h s hs
  cases s with
  | lit t =>
    intro c hcd
    have := List.all_eq_true.mp hc c hcd
    constructor
    · intro he; rw [he] at this; simp at this
    · intro he; rw [he] at this; simp at this
  | ph f =>
    have hf : f = "ch" := by
      have : (f == "ch") = true := hc
      exact eq_of_beq this
    subst hf
    refine ⟨by decide, by decide, ?_⟩
    simp [lookupPy]

/-- Witness for C1: the Channel of Scenario D with identity 2 and template
`"CURR? (@\x7bch\x7d)"` renders to `"CURR? (@2)"`. -/
theorem claim_C1_witness :
    SubSystem.insert_id { placeholder := "ch", id := PyVal.pint 2 }
      "CURR? (@\x7bch\x7d)" = some "CURR? (@2)" := by
  have h := claim_C1_insert_id_substitutes_placeholder (.pint 2)
    [.lit "CURR? (@", .ph "ch", .lit ")"] (by decide)
  have e1 : renderSegs [Seg.lit "CURR? (@", Seg.ph "ch", Seg.lit ")"] =
      "CURR? (@\x7bch\x7d)" := by decide
  have e2 : flatSegs [("ch", PyVal.pint 2)] [Seg.lit "CURR? (@", Seg.ph "ch", Seg.lit ")"] =
      "CURR? (@2)" := by decide
  rw [e1, e2] at h
  exact h

/-- C2: a non-root node's `write` delegates exactly `insert_id(command)` to
the parent's `write`, unchanged — for an arbitrary parent `write` function
the delegated string is the substituted one — and composing with the root
`Instrument.write` yields the same wire bytes the root would produce on the
pre-substituted string directly (substitution happens exactly once: the
root appends the termination and substitutes nothing). -/
theorem claim_C2_write_delegates_substituted (s : SubSystem) (term c r : String)
    (h : s.insert_id c = some r) :
    (∀ (α : Type) (pw : String → α), s.write pw c = some (pw r)) ∧
    s.write (Instrument.write term) c = some (Instrument.write term r) ∧
    Instrument.write term r = r ++ term := by
  refine ⟨?_, ?_, rfl⟩
  · intro α pw
    simp [SubSystem.write, h]
  · simp [SubSystem.write, h]

/-- Witness for C2: a Channel with identity 2 writing `"CURR? (@\x7bch\x7d)"`
produces the wire bytes of the root writing `"CURR? (@2)"` directly. -/
theorem claim_C2_witness :
    SubSystem.write { placeholder := "ch", id := PyVal.pint 2 }
      (Instrument.write "\n") "CURR? (@\x7bch\x7d)" = some ("CURR? (@2)" ++ "\n") := by
  have h := claim_C2_write_delegates_substituted ⟨"ch", .pint 2⟩ "\n"
    "CURR? (@\x7bch\x7d)" "CURR? (@2)" (by decide)
  rw [← h.2.2]
  exact h.2.1

/-- Counterexample to C3: the claim quantifies over all templates declared
in the repository's driver classes, including the older scope-channel
variant `"CH\x7bself.number\x7d:SCALE?"`
(src/pymeasure/instruments/tektronix/tektronix_common_base_scope.py line 97,
node id `"CH_1"`).  On that template `insert_id` does not succeed: the
field `self.number` is not resolvable by the node's single-placeholder
mapping, so substitution fails (Python raises `KeyError`) instead of being
total. -/
theorem claim_C3_counterexample :
    SubSystem.insert_id { placeholder := "ch", id := PyVal.pstr "CH_1" }
      "CH\x7bself.number\x7d:SCALE?" = none := by decide

/-- C3 as amended: for every channel-owned template of the current driver
classes paired with every node instance the drivers create (the templates
whose placeholder fields are the node's declared placeholders — i.e. all
except the older `\x7bself.number\x7d` scope-channel variant), substitution is
total and idempotent: `insert_id` succeeds, the result contains no
remaining placeholder tokens, and re-substituting yields the same string. -/
theorem claim_C3_substitution_total_idempotent :
    ∀ p ∈ chTemplates, ∃ r, pyFormatMap p.1 p.2 = some r ∧
      braceFreeB r = true ∧ pyFormatMap p.1 r = some r := by
  intro p hp
  have hall : chTemplates.all substOkB = true := by decide
  have hb := List.all_eq_true.mp hall p hp
  revert hb
  unfold substOkB
  cases hpf : pyFormatMap p.1 p.2 with
  | none => intro h; exact absurd h (by simp)
  | some r =>
    intro h
    rw [Bool.and_eq_true] at h
    exact ⟨r, rfl, h.1, beq_iff_eq.mp h.2⟩

/-- Witness for C3 (amended): the `VoltageChannel` template
`"VOLT? (@\x7bch\x7d)"` at channel 1. -/
theorem claim_C3_witness :
    ∃ r, pyFormatMap (subMapCh (PyVal.pint 1)) "VOLT? (@\x7bch\x7d)" = some r ∧
      braceFreeB r = true ∧ pyFormatMap (subMapCh (PyVal.pint 1)) r = some r :=
  claim_C3_substitution_total_idempotent
    (subMapCh (PyVal.pint 1), "VOLT? (@\x7bch\x7d)") (by decide)

/-- Counterexample to C4: setting 10.0 on the PWR1201L `voltage_setpoint`
transmits `"VOLT 10"` — the printf `%g` rendering of 10.0 drops the
trailing `.0` — not `"VOLT 10.0"` as the claim states. -/
theorem claim_C4_counterexample :
    PWR1201L_voltage_setpoint.set (.pfloat 10) = (["VOLT 10"], none) ∧
    ("VOLT 10" : String) ≠ "VOLT 10.0" := by
  constructor
  · with_unfolding_all decide
  · decide

/-- C4 as amended: for the PWR1201L `voltage_setpoint` (read `"VOLT?"`,
write `"VOLT %g"`, range [0, 40]), setting 10.0 passes validation and
transmits exactly `"VOLT 10"` (the printf `%g` rendering of 10.0) plus the
write-termination sequence appended by the root, and a subsequent get whose
wire response is `"10.000000E+00"` returns the number 10.0. -/
theorem claim_C4_set_get_voltage (term : String) :
    PWR1201L_voltage_setpoint.set (.pfloat 10) = (["VOLT 10"], none) ∧
    Instrument.write term "VOLT 10" = "VOLT 10" ++ term ∧
    PWR1201L_voltage_setpoint.get "10.000000E+00" = some (.pfloat 10) := by
  refine ⟨by with_unfolding_all decide, rfl, by with_unfolding_all decide⟩

/-- C5: `validate_range` returns an in-range value unchanged when
`truncate = false`; outside the range the strict variant fails with
`RangeError`, and the truncating variant returns the violated bound. -/
theorem claim_C5_validate_range (v lo hi : ℚ) :
    (lo ≤ v → v ≤ hi → validate_range v lo hi false = .ok v) ∧
    ((v < lo ∨ hi < v) → validate_range v lo hi false = .error .rangeError) ∧
    (v < lo → validate_range v lo hi true = .ok lo) ∧
    (lo ≤ hi → hi < v → validate_range v lo hi true = .ok hi) := by
  refine ⟨?_, ?_, ?_, ?_⟩
  · intro h1 h2
    have hn : ¬(v < lo ∨ hi < v) := by
      rintro (h | h)
      · exact absurd h1 (not_le.mpr h)
      · exact absurd h2 (not_le.mpr h)
    simp [validate_range, hn]
  · intro h
    simp [validate_range, h]
  · intro h
    simp [validate_range, h]
  · intro hl h
    have hnl : ¬(v < lo) := not_lt.mpr (le_trans hl (le_of_lt h))
    simp [validate_range, hnl, h]

/-- Witness for C5 at concrete inputs on the range [0, 10]. -/
theorem claim_C5_witness :
    validate_range 5 0 10 false = .ok 5 ∧
    validate_range 11 0 10 false = .error .rangeError ∧
    validate_range (-1) 0 10 true = .ok 0 ∧
    validate_range 11 0 10 true = .ok 10 :=
  ⟨(claim_C5_validate_range 5 0 10).1 (by norm_num) (by norm_num),
   (claim_C5_validate_range 11 0 10).2.1 (Or.inr (by norm_num)),
   (claim_C5_validate_range (-1) 0 10).2.2.1 (by norm_num),
   (claim_C5_validate_range 11 0 10).2.2.2 (by norm_num) (by norm_num)⟩

/-- C6: on the PLZ1205W `current_range` (strict discrete set
`["LOW", "MED", "HIGH"]`, write `"CURR:RANG %s"`), setting `"MED"`
transmits exactly `"CURR:RANG MED"`, and setting `"BOGUS"` fails with
`DiscreteSetError` transmitting nothing (the failed set is atomic). -/
theorem claim_C6_discrete_set_atomic :
    PLZ1205W_current_range.set (.pstr "MED") = (["CURR:RANG MED"], none) ∧
    PLZ1205W_current_range.set (.pstr "BOGUS") =
      ([], some (.validation .discreteSetError)) := by
  constructor
  · with_unfolding_all decide
  · with_unfolding_all decide

/-- C7: every value map declared for the drivers (the predefined
`BOOLEAN_TO_INT`, `BOOLEAN_TO_STR`, `BOOLEAN_TO_ON_OFF` and the literal
maps of the driver files) is a bijection over its logical domain — two
pairs agree on the logical value exactly when they agree on the wire token
— and `from_wire (to_wire v) = v` holds on every element of the domain;
in particular `\x7bTrue: "ON", False: "OFF"\x7d` sends `ON` for `True` and maps a
received `"OFF"` back to `False`. -/
theorem claim_C7_value_maps_bijective :
    (∀ m ∈ driverValueMaps,
      (∀ p₁ ∈ m, ∀ p₂ ∈ m, (p₁.1 = p₂.1 ↔ p₁.2 = p₂.2)) ∧
      (∀ pr ∈ m, to_wire m pr.1 = some pr.2 ∧ from_wire m pr.2 = some pr.1)) ∧
    to_wire BOOLEAN_TO_ON_OFF (.pbool true) = some (.pstr "ON") ∧
    from_wire BOOLEAN_TO_ON_OFF (.pstr "OFF") = some (.pbool false) := by
  decide

/-- Witness for C7: the round trip at `True` of `BOOLEAN_TO_INT`. -/
theorem claim_C7_witness :
    to_wire BOOLEAN_TO_INT (PyVal.pbool true) = some (PyVal.pint 1) ∧
    from_wire BOOLEAN_TO_INT (PyVal.pint 1) = some (PyVal.pbool true) :=
  (claim_C7_value_maps_bijective.1 BOOLEAN_TO_INT (by decide)).2
    (PyVal.pbool true, PyVal.pint 1) (by decide)

/-- C8: a `BaseScopeChannel` resolves its two named placeholders in one
pass: with channel type `"CH"` and identity `n`, the template
`"\x7bch_type\x7d\x7bch\x7d:LABel:XPOS?"` renders to `"CH" ++ toString n ++
":LABel:XPOS?"`; in particular `"CH2:LABel:XPOS?"` for identity 2. -/
theorem claim_C8_multi_placeholder_one_pass :
    (∀ n : Int,
      BaseScopeChannel.insert_id
        { placeholder_id := "ch", channel_type := "CH",
          placeholder_channel_type := "ch_type", id := .pint n }
        "\x7bch_type\x7d\x7bch\x7d:LABel:XPOS?" =
        some ("CH" ++ toString n ++ ":LABel:XPOS?")) ∧
    BaseScopeChannel.insert_id
      { placeholder_id := "ch", channel_type := "CH",
        placeholder_channel_type := "ch_type", id := .pint 2 }
      "\x7bch_type\x7d\x7bch\x7d:LABel:XPOS?" = some "CH2:LABel:XPOS?" := by
  constructor
  · intro n
    have hseg : ∀ s ∈ ([Seg.ph "ch_type", Seg.ph "ch", Seg.lit ":LABel:XPOS?"] : List Seg),
        SegOK [("ch", PyVal.pint n), ("ch_type", PyVal.pstr "CH")] s := by
      intro s hs
      rcases List.mem_cons.mp hs with rfl | hs'
      · exact ⟨by decide, by decide, by simp [lookupPy]⟩
      rcases List.mem_cons.mp hs' with rfl | hs''
      · exact ⟨by decide, by decide, by simp [lookupPy]⟩
      rcases List.mem_cons.mp hs'' with rfl | hs'''
      · exact segOK_lit _ _ (by decide)
      · exact absurd hs''' (List.not_mem_nil _)
    have h := pyFormatMap_segs _ _ hseg
    rw [show renderSegs [Seg.ph "ch_type", Seg.ph "ch", Seg.lit ":LABel:XPOS?"] =
      "\x7bch_type\x7d\x7bch\x7d:LABel:XPOS?" from by decide] at h
    have e2 : flatSegs [("ch", PyVal.pint n), ("ch_type", PyVal.pstr "CH")]
        [Seg.ph "ch_type", Seg.ph "ch", Seg.lit ":LABel:XPOS?"] =
        "CH" ++ toString n ++ ":LABel:XPOS?" := by
      simp only [flatSegs, List.foldr_cons, List.foldr_nil, flatSeg, lookupPy,
        List.find?, PyVal.str]
      rw [strAppend_empty, ← strAppend_assoc]
      rfl
    rw [e2] at h
    exact h
  · decide

/-- C9: a `CommandGroupSubSystem` forwards commands verbatim — `write`
passes the command to the parent's `write` completely unchanged (no
substitution of any kind) and `read` returns exactly the parent's `read`
result; the group adds nothing to the wire traffic. -/
theorem claim_C9_command_group_forwards_verbatim
    (g : CommandGroupSubSystem) (α : Type) (pw : String → α) (pr : Unit → α)
    (c : String) :
    g.write pw c = pw c ∧ g.read pr = pr () :=
  ⟨rfl, rfl⟩

/-- C10: the `ScopeChannel.coupling` allowed-values collection is exactly
`["AC", "DCDCR"]` (the adjacent literals `"DC" "DCR"` concatenate), so the
strict discrete-set validator accepts `"AC"` and `"DCDCR"` and rejects
`"DC"` and `"DCR"`, and a rejected set transmits nothing. -/
theorem claim_C10_coupling_values_concatenate :
    couplingValues = [.pstr "AC", .pstr "DCDCR"] ∧
    validate_discrete_set (.pstr "AC") couplingValues = .ok (.pstr "AC") ∧
    validate_discrete_set (.pstr "DCDCR") couplingValues = .ok (.pstr "DCDCR") ∧
    validate_discrete_set (.pstr "DC") couplingValues = .error .discreteSetError ∧
    validate_discrete_set (.pstr "DCR") couplingValues = .error .discreteSetError ∧
    ScopeChannel_coupling.set (.pstr "DC") = ([], some (.validation .discreteSetError)) ∧
    ScopeChannel_coupling.set (.pstr "AC") = (["CH\x7bch\x7d:COUPling AC"], none) := by
  refine ⟨rfl, rfl, rfl, rfl, rfl, by decide, by decide⟩
